import Mathlib

/-!
Shallow embedding of `checkout/webhook_handler.py` (class `StripeWH_Handler`).

The Python handler is stateful (Django ORM, Stripe SDK, outbound mail); here
the ambient state is made explicit:

* `Store` models the Django database tables touched by the handler
  (`Order`, `OrderLineItem`, `UserProfile`, `Product`);
* `World` models the Stripe side (`stripe.Charge.retrieve`);
* `Effects` counts the handler's side effects (order creations, line-item
  creations, lookup attempts, `time.sleep(1)` calls, confirmation emails);
* Python exceptions that escape a `try` block become the `HResult.exn`
  constructor; an `HttpResponse` becomes `Response`.

`json.loads` on the `bag` metadata value is modelled as a tagged parse
outcome `BagRaw` (`valid` carries the decoded mapping, `malformed` is any
string that fails to parse); `json.dumps` is modelled by the deterministic
serializer `dumps`.  Bag values, per the JSON the storefront produces, are
either integers (`BagEntry.int`), objects (`BagEntry.obj`, whose only field
the handler reads is `"items_by_size"`), or any other JSON value
(`BagEntry.other`, on which the handler's subscript raises).
-/

namespace Tac

/-- Stripe shipping address; a field is `none` when absent (JSON null) and
may be `some ""` as delivered by Stripe before the handler normalizes it. -/
structure Address where
  line1 : Option String
  line2 : Option String
  city : Option String
  state : Option String
  postal_code : Option String
  country : Option String
deriving DecidableEq, Repr

/-- `intent.shipping`: name, phone, optional email and the address. -/
structure ShippingDetails where
  name : Option String
  phone : Option String
  email : Option String
  address : Address
deriving DecidableEq, Repr

/-- A Stripe charge: amount in minor currency units and
`charge.billing_details.email`. -/
structure Charge where
  amount : Int
  billing_details_email : Option String
deriving DecidableEq, Repr

/-- One value of the decoded bag mapping. -/
inductive BagEntry where
  /-- a bare JSON integer quantity -/
  | int (q : Int)
  /-- a JSON object; the handler only reads its `"items_by_size"` key,
  itself a mapping from size label to quantity -/
  | obj (fields : List (String × List (String × Int)))
  /-- any other JSON value (string, array, ...): subscripting it raises -/
  | other
deriving DecidableEq, Repr

/-- The decoded bag: mapping product id → entry. -/
abbrev Bag := List (String × BagEntry)

/-- Outcome of `json.loads` on the raw `bag` metadata string: either it
parses to a bag mapping or it is malformed JSON. -/
inductive BagRaw where
  | valid (b : Bag)
  | malformed
deriving DecidableEq, Repr

/-- `intent` payload of the webhook event. -/
structure Intent where
  id : String
  latest_charge : String
  metadata_bag : Option BagRaw
  metadata_save_info : Option String
  metadata_username : Option String
  shipping : ShippingDetails
deriving DecidableEq, Repr

/-- A webhook event: `event['type']` and `event.data.object`. -/
structure Event where
  type : String
  intent : Intent
deriving DecidableEq, Repr

/-- A persisted `checkout.models.Order` row. -/
structure Order where
  id : Nat
  full_name : Option String
  user_profile : Option String
  email : String
  phone_number : Option String
  country : Option String
  postcode : Option String
  town_or_city : Option String
  street_address1 : Option String
  street_address2 : Option String
  county : Option String
  grand_total : Rat
  original_bag : String
  stripe_pid : String
deriving DecidableEq, Repr

/-- A persisted `checkout.models.OrderLineItem` row. -/
structure OrderLineItem where
  order_id : Nat
  product_id : String
  quantity : Int
  product_size : Option String
deriving DecidableEq, Repr

/-- A persisted `profiles.models.UserProfile` row. -/
structure Profile where
  username : String
  default_phone_number : Option String
  default_country : Option String
  default_postcode : Option String
  default_town_or_city : Option String
  default_street_address1 : Option String
  default_street_address2 : Option String
  default_county : Option String
deriving DecidableEq, Repr

/-- A `products.models.Product` row (only its id matters to the handler). -/
structure Product where
  id : String
deriving DecidableEq, Repr

/-- The database state the handler reads and writes. -/
structure Store where
  orders : List Order
  lineItems : List OrderLineItem
  profiles : List Profile
  products : List Product
  nextOrderId : Nat
deriving DecidableEq, Repr

/-- The Stripe backend: charges retrievable by id. -/
structure World where
  charges : List (String × Charge)
deriving DecidableEq, Repr

/-- `stripe.Charge.retrieve(latest_charge_id)`; `none` models the SDK call
raising (e.g. no such charge). -/
def chargeRetrieve (w : World) (cid : String) : Option Charge :=
  (w.charges.lookup cid)

/-- Python exceptions that can arise inside `handle_payment_intent_succeeded`. -/
inductive Exn where
  | chargeRetrieveFailed
  | profileDoesNotExist
  | orderMultipleObjectsReturned
  | productDoesNotExist (item_id : String)
  | keyError (key : String)
  | typeError
deriving DecidableEq, Repr

/-- `str(e)` for the exceptions above, used in the 500 response body. -/
def exnMsg : Exn → String
  | .chargeRetrieveFailed => "No such charge"
  | .profileDoesNotExist => "UserProfile matching query does not exist."
  | .orderMultipleObjectsReturned => "get() returned more than one Order"
  | .productDoesNotExist item_id =>
      "Product matching query does not exist. (id " ++ item_id ++ ")"
  | .keyError key => "KeyError: " ++ key
  | .typeError => "TypeError: value is not subscriptable by string key"

/-- An `HttpResponse`: status code and content. -/
structure Response where
  status : Nat
  content : String
deriving DecidableEq, Repr

/-- Side-effect counters for one handler invocation. -/
structure Effects where
  ordersCreated : Nat
  lineItemsCreated : Nat
  lookups : Nat
  sleepSeconds : Nat
  emailsSent : Nat
deriving DecidableEq, Repr

/-- No side effects yet. -/
def effZero : Effects :=
  { ordersCreated := 0, lineItemsCreated := 0, lookups := 0
    sleepSeconds := 0, emailsSent := 0 }

/-- Result of one handler invocation: either an `HttpResponse` was returned,
or a Python exception escaped the handler; both carry the database state and
side effects at that point. -/
inductive HResult where
  | ok (resp : Response) (s : Store) (eff : Effects)
  | exn (e : Exn) (s : Store) (eff : Effects)
deriving DecidableEq, Repr

/-- The database state a result leaves behind. -/
def HResult.store : HResult → Store
  | .ok _ s _ => s
  | .exn _ s _ => s

/-- The side effects a result records. -/
def HResult.effects : HResult → Effects
  | .ok _ _ eff => eff
  | .exn _ _ eff => eff

/-- Whether the invocation ended in an escaped exception instead of
returning an `HttpResponse`. -/
def HResult.isExn : HResult → Bool
  | .ok .. => false
  | .exn .. => true

/-- `json.dumps` on a size map. -/
def dumpsSizes (l : List (String × Int)) : String :=
  "\x7b" ++ String.intercalate ", "
    (l.map fun p => "\"" ++ p.1 ++ "\": " ++ toString p.2) ++ "\x7d"

/-- `json.dumps` on one bag value. -/
def dumpsEntry : BagEntry → String
  | .int q => toString q
  | .obj fields =>
      "\x7b" ++ String.intercalate ", "
        (fields.map fun p => "\"" ++ p.1 ++ "\": " ++ dumpsSizes p.2) ++ "\x7d"
  | .other => "null"

/-- `json.dumps(bag_data)`: deterministic serialization of the decoded bag. -/
def dumps (b : Bag) : String :=
  "\x7b" ++ String.intercalate ", "
    (b.map fun p => "\"" ++ p.1 ++ "\": " ++ dumpsEntry p.2) ++ "\x7d"

/-- Python truthiness of an optional string: `None` and `""` are falsy. -/
def truthyStr : Option String → Bool
  | none => false
  | some s => s != ""

/-- `a or b` for an optional string `a` and fallback `b`
(Python `or`: `None` and `""` fall through). -/
def pyOrStr (a : Option String) (b : String) : String :=
  match a with
  | some s => if s = "" then b else s
  | none => b

/-- Lines 83-87: `billing_details.email or getattr(shipping_details, "email",
None) or "noemail@example.com"`. -/
def deriveEmail (billing shippingEmail : Option String) : String :=
  pyOrStr billing (pyOrStr shippingEmail "noemail@example.com")

/-- Lines 92-94, per field: a value equal to `""` is replaced by `None`. -/
def normField (v : Option String) : Option String :=
  if v = some "" then none else v

/-- Lines 91-94: replace blank address fields with `None`. -/
def normalizeAddress (a : Address) : Address :=
  { line1 := normField a.line1
    line2 := normField a.line2
    city := normField a.city
    state := normField a.state
    postal_code := normField a.postal_code
    country := normField a.country }

/-- Everything `handle_payment_intent_succeeded` extracts from the event and
the retrieved charge before touching the database (lines 61-94). -/
structure Ctx where
  pid : String
  bag_data : Bag
  save_info : Option String
  username : Option String
  shipping : ShippingDetails
  email : String
  grand_total : Rat
  eventType : String
deriving DecidableEq, Repr

/-- Lines 61-94: retrieve the charge (`none` when that raises), decode the
bag treating malformed JSON as `{}` (absent metadata defaults to `"{}"`),
derive the email, compute the grand total and normalize the address. -/
def mkCtx (w : World) (ev : Event) : Option Ctx :=
  let intent := ev.intent
  match chargeRetrieve w intent.latest_charge with
  | none => none
  | some charge =>
    let bag_data :=
      match intent.metadata_bag.getD (BagRaw.valid []) with
      | .valid b => b
      | .malformed => []
    some
      { pid := intent.id
        bag_data := bag_data
        save_info := intent.metadata_save_info
        username := intent.metadata_username
        shipping := { intent.shipping with
                      address := normalizeAddress intent.shipping.address }
        email := deriveEmail charge.billing_details_email intent.shipping.email
        grand_total := (charge.amount : Rat) / 100
        eventType := ev.type }

/-- `UserProfile.objects.get(user__username=username)` (usernames unique). -/
def findProfile (s : Store) (u : String) : Option Profile :=
  s.profiles.find? fun p => p.username == u

/-- Lines 102-108: overwrite the profile's default shipping fields from the
current shipping details. -/
def updateProfileRecord (p : Profile) (sh : ShippingDetails) : Profile :=
  { p with
    default_phone_number := sh.phone
    default_country := sh.address.country
    default_postcode := sh.address.postal_code
    default_town_or_city := sh.address.city
    default_street_address1 := sh.address.line1
    default_street_address2 := sh.address.line2
    default_county := sh.address.state }

/-- `profile.save()`: persist the updated profile row. -/
def saveProfile (s : Store) (p : Profile) : Store :=
  { s with profiles := s.profiles.map fun q =>
      if q.username = p.username then p else q }

/-- Lines 96-109: when the intent carries a truthy, non-anonymous username,
resolve the profile (raising `profileDoesNotExist` when absent, uncaught in
the source) and, when `save_info` is truthy, save the shipping defaults.
Returns the profile reference for the order and the possibly updated store. -/
def profileStep (c : Ctx) (s : Store) : Except Exn (Option String × Store) :=
  match c.username with
  | none => .ok (none, s)
  | some u =>
    if u = "" || u = "AnonymousUser" then .ok (none, s)
    else
      match findProfile s u with
      | none => .error .profileDoesNotExist
      | some p =>
        if truthyStr c.save_info then
          .ok (some u, saveProfile s (updateProfileRecord p c.shipping))
        else
          .ok (some u, s)

/-- `field__iexact` comparison of two nullable strings: both `NULL`, or both
present and equal case-insensitively. -/
def ieqOpt : Option String → Option String → Bool
  | none, none => true
  | some a, some b => a.toLower == b.toLower
  | _, _ => false

/-- The identity-tuple filter of the `Order.objects.get` call (lines
118-131): case-insensitive string fields plus exact grand total, serialized
bag and Stripe pid. -/
def identityMatch (c : Ctx) (o : Order) : Bool :=
  ieqOpt o.full_name c.shipping.name &&
  o.email.toLower == c.email.toLower &&
  ieqOpt o.phone_number c.shipping.phone &&
  ieqOpt o.country c.shipping.address.country &&
  ieqOpt o.postcode c.shipping.address.postal_code &&
  ieqOpt o.town_or_city c.shipping.address.city &&
  ieqOpt o.street_address1 c.shipping.address.line1 &&
  ieqOpt o.street_address2 c.shipping.address.line2 &&
  ieqOpt o.county c.shipping.address.state &&
  decide (o.grand_total = c.grand_total) &&
  o.original_bag == dumps c.bag_data &&
  o.stripe_pid == c.pid

/-- Outcome of the retry loop of lines 111-136, with the number of lookup
attempts made and seconds slept. -/
inductive LookupResult where
  /-- `Order.objects.get` succeeded on some attempt -/
  | found (o : Order) (attempts sleeps : Nat)
  /-- all five attempts raised `Order.DoesNotExist` -/
  | notFound (attempts sleeps : Nat)
  /-- `Order.objects.get` raised `MultipleObjectsReturned` (not caught) -/
  | multiple (attempts sleeps : Nat)
deriving DecidableEq, Repr

/-- One pass of the `while attempt <= 5` loop: `fuel` is the number of
attempts left, `att`/`sl` the attempts made and seconds slept so far.  Each
`Order.DoesNotExist` increments the attempt counter and sleeps one second. -/
def lookupGo (c : Ctx) (s : Store) : Nat → Nat → Nat → LookupResult
  | 0, att, sl => .notFound att sl
  | fuel + 1, att, sl =>
    match s.orders.filter (identityMatch c) with
    | [o] => .found o (att + 1) sl
    | [] => lookupGo c s fuel (att + 1) (sl + 1)
    | _ => .multiple (att + 1) sl

/-- Lines 111-136: try up to five times to find an order already created
during checkout, sleeping one second after each failed attempt. -/
def orderLookup (c : Ctx) (s : Store) : LookupResult :=
  lookupGo c s 5 0 0

/-- `Product.objects.get(id=item_id)`. -/
def findProduct (s : Store) (item_id : String) : Option Product :=
  s.products.find? fun p => p.id == item_id

/-- `OrderLineItem.objects.create(...)`. -/
def addLineItem (s : Store) (li : OrderLineItem) : Store :=
  { s with lineItems := s.lineItems ++ [li] }

/-- Lines 180-186: one `OrderLineItem` per `(size, quantity)` pair of an
`items_by_size` mapping. -/
def addSizeItems (s : Store) (oid : Nat) (item_id : String) :
    List (String × Int) → Store
  | [] => s
  | (size, quantity) :: rest =>
    addSizeItems
      (addLineItem s
        { order_id := oid, product_id := item_id, quantity := quantity
          product_size := some size })
      oid item_id rest

/-- Lines 167-186: build the order line items from the decoded bag.  Returns
the store at the point processing stopped, the number of line items created,
and the exception that interrupted it, if any: a missing product raises
`Product.DoesNotExist`; a non-integer entry is subscripted with
`"items_by_size"`, raising `KeyError` when the key is absent and `TypeError`
when the value is not an object. -/
def createLineItems (s : Store) (oid : Nat) : Bag → Store × Nat × Option Exn
  | [] => (s, 0, none)
  | (item_id, item_data) :: rest =>
    match findProduct s item_id with
    | none => (s, 0, some (.productDoesNotExist item_id))
    | some _ =>
      match item_data with
      | .int q =>
        let s1 := addLineItem s
          { order_id := oid, product_id := item_id, quantity := q
            product_size := none }
        let (s2, n, e) := createLineItems s1 oid rest
        (s2, n + 1, e)
      | .obj fields =>
        match fields.lookup "items_by_size" with
        | none => (s, 0, some (.keyError "items_by_size"))
        | some sizes =>
          let s1 := addSizeItems s oid item_id sizes
          let (s2, n, e) := createLineItems s1 oid rest
          (s2, n + sizes.length, e)
      | .other => (s, 0, some .typeError)

/-- Lines 151-165: the `Order` row `Order.objects.create` inserts. -/
def mkOrder (c : Ctx) (profile : Option String) (oid : Nat) : Order :=
  { id := oid
    full_name := c.shipping.name
    user_profile := profile
    email := c.email
    phone_number := c.shipping.phone
    country := c.shipping.address.country
    postcode := c.shipping.address.postal_code
    town_or_city := c.shipping.address.city
    street_address1 := c.shipping.address.line1
    street_address2 := c.shipping.address.line2
    county := c.shipping.address.state
    grand_total := c.grand_total
    original_bag := dumps c.bag_data
    stripe_pid := c.pid }

/-- Insert a freshly created order row. -/
def createOrderInStore (s : Store) (o : Order) : Store :=
  { s with orders := s.orders ++ [o], nextOrderId := s.nextOrderId + 1 }

/-- `order.delete()` (line 190): remove the order row; its line items are
its children and go with it.  Modelled from the spec for
`checkout/models.py` (not in the sources): the `Order` row is destroyed,
and `OrderLineItem` rows are children of their order. -/
def deleteOrder (s : Store) (oid : Nat) : Store :=
  { s with
    orders := s.orders.filter fun o => o.id != oid
    lineItems := s.lineItems.filter fun li => li.order_id != oid }

/-- Lines 150-205: create the order and its line items; on any exception
delete the just-created order and return a 500 response with the error
detail, otherwise send the confirmation email and return 200. -/
def createPhase (c : Ctx) (profile : Option String) (s : Store)
    (att sl : Nat) : HResult :=
  let order := mkOrder c profile s.nextOrderId
  let s1 := createOrderInStore s order
  match createLineItems s1 order.id c.bag_data with
  | (s2, n, none) =>
    .ok
      { status := 200
        content := "Webhook received: " ++ c.eventType ++
          " | New order created successfully." }
      s2
      { ordersCreated := 1, lineItemsCreated := n, lookups := att
        sleepSeconds := sl, emailsSent := 1 }
  | (s2, n, some e) =>
    .ok
      { status := 500
        content := "Webhook error: Could not create order — " ++ exnMsg e }
      (deleteOrder s2 order.id)
      { ordersCreated := 1, lineItemsCreated := n, lookups := att
        sleepSeconds := sl, emailsSent := 0 }

/-- Lines 54-205: `handle_payment_intent_succeeded`.  A failing charge
retrieval or profile lookup escapes as an exception (those calls are outside
any `try` in the source); a `MultipleObjectsReturned` from the order lookup
likewise.  Otherwise: a found order yields 200 "already existed" with a
confirmation email and no write; an absent order is created together with
its line items, any failure there being compensated by deleting the order
and answered with a 500. -/
def handle_payment_intent_succeeded (w : World) (ev : Event) (s : Store) :
    HResult :=
  match mkCtx w ev with
  | none => .exn .chargeRetrieveFailed s effZero
  | some c =>
    match profileStep c s with
    | .error e => .exn e s effZero
    | .ok (profile, s1) =>
      match orderLookup c s1 with
      | .found _o att sl =>
        .ok
          { status := 200
            content := "Webhook received: " ++ c.eventType ++
              " | Order already existed — confirmation email sent." }
          s1
          { ordersCreated := 0, lineItemsCreated := 0, lookups := att
            sleepSeconds := sl, emailsSent := 1 }
      | .multiple att sl =>
        .exn .orderMultipleObjectsReturned s1
          { effZero with lookups := att, sleepSeconds := sl }
      | .notFound att sl => createPhase c profile s1 att sl

/-- Lines 40-45: `handle_event`, the catch-all for webhook events with no
dedicated method: acknowledge with 200, touch nothing. -/
def handle_event (ev : Event) (s : Store) : Response × Store × Effects :=
  ({ status := 200, content := "Unhandled webhook received: " ++ ev.type },
   s, effZero)

/-- Lines 47-52: `handle_payment_intent_payment_failed`: acknowledge with
200, touch nothing. -/
def handle_payment_intent_payment_failed (ev : Event) (s : Store) :
    Response × Store × Effects :=
  ({ status := 200, content := "Payment failed webhook received: " ++ ev.type },
   s, effZero)

/-- Which line items one bag entry should produce, stated from the spec's
words ("integer bag entries produce one sizeless line item; structured
entries produce one line item per size key"); used to compare the code's
`createLineItems` against the specified shape. -/
def specEntryItems (oid : Nat) (item_id : String) : BagEntry → List OrderLineItem
  | .int q =>
    [{ order_id := oid, product_id := item_id, quantity := q
       product_size := none }]
  | .obj fields =>
    ((fields.lookup "items_by_size").getD []).map fun p =>
      { order_id := oid, product_id := item_id, quantity := p.2
        product_size := some p.1 }
  | .other => []

/-- The line items a whole bag should produce, per the spec's words. -/
def specLineItems (oid : Nat) : Bag → List OrderLineItem
  | [] => []
  | (item_id, e) :: rest => specEntryItems oid item_id e ++ specLineItems oid rest

/-- A bag entry the creation loop processes without raising: its product
exists and, for a structured entry, the `"items_by_size"` key is present. -/
def bagEntryOk (s : Store) (item_id : String) : BagEntry → Bool
  | .int _ => (findProduct s item_id).isSome
  | .obj fields =>
    (findProduct s item_id).isSome && (fields.lookup "items_by_size").isSome
  | .other => false

/-- The event with its shipping address already normalized. -/
def normalizeEvent (ev : Event) : Event :=
  { ev with intent := { ev.intent with
      shipping := { ev.intent.shipping with
        address := normalizeAddress ev.intent.shipping.address } } }

/-- The event with the raw bag metadata replaced. -/
def setBagMeta (ev : Event) (b : Option BagRaw) : Event :=
  { ev with intent := { ev.intent with metadata_bag := b } }

/-! ### Concrete scenario used by the witnesses -/

/-- A shipping address as Stripe delivers it, `line2` blank. -/
def wAddr : Address :=
  { line1 := some "1 Main St", line2 := some "", city := some "Town"
    state := none, postal_code := some "12345", country := some "US" }

def wShip : ShippingDetails :=
  { name := some "Jane Roe", phone := some "555", email := none
    address := wAddr }

def wIntent : Intent :=
  { id := "pi_1", latest_charge := "ch_1"
    metadata_bag := some (.valid [("42", .int 3)])
    metadata_save_info := none, metadata_username := none, shipping := wShip }

def wEvent : Event := { type := "payment_intent.succeeded", intent := wIntent }

def wCharge : Charge := { amount := 1999, billing_details_email := some "j@x.com" }

def wWorld : World := { charges := [("ch_1", wCharge)] }

/-- Store before any delivery: product 42 on catalog, no orders. -/
def wStore : Store :=
  { orders := [], lineItems := [], profiles := [], products := [{ id := "42" }]
    nextOrderId := 0 }

/-- The context `mkCtx` extracts from `wWorld`/`wEvent`. -/
def wCtx : Ctx :=
  { pid := "pi_1", bag_data := [("42", .int 3)], save_info := none
    username := none
    shipping := { wShip with address := normalizeAddress wAddr }
    email := "j@x.com", grand_total := ((1999 : Int) : Rat) / 100
    eventType := "payment_intent.succeeded" }

/-- The order the first delivery commits. -/
def wOrder : Order := mkOrder wCtx none 0

/-- Store after the first delivery committed. -/
def wStoreAfter : Store :=
  { orders := [wOrder]
    lineItems := [{ order_id := 0, product_id := "42", quantity := 3
                    product_size := none }]
    profiles := [], products := [{ id := "42" }], nextOrderId := 1 }

/-- Store with an empty product catalog: line-item creation must fail. -/
def wStoreNP : Store :=
  { orders := [], lineItems := [], profiles := [], products := []
    nextOrderId := 0 }

/-- What the failed creation against `wStoreNP` leaves behind: no rows, but
the order id counter was consumed. -/
def wFailStore : Store :=
  { orders := [], lineItems := [], profiles := [], products := []
    nextOrderId := 1 }

/-- The 500 response of the failed creation against `wStoreNP`. -/
def wFailResp : Response :=
  { status := 500
    content := "Webhook error: Could not create order — " ++
      exnMsg (.productDoesNotExist "42") }

/-- Effects of the failed creation against `wStoreNP`. -/
def wFailEff : Effects :=
  { ordersCreated := 1, lineItemsCreated := 0, lookups := 5
    sleepSeconds := 5, emailsSent := 0 }

/-- Store carrying product 7, for the sized-bag scenario. -/
def wStore7 : Store :=
  { orders := [], lineItems := [], profiles := [], products := [{ id := "7" }]
    nextOrderId := 0 }

/-- An intent whose latest-charge reference is unknown to the processor. -/
def cxIntent : Intent :=
  { id := "pi_9", latest_charge := "ch_missing", metadata_bag := none
    metadata_save_info := none, metadata_username := none, shipping := wShip }

def cxEvent : Event := { type := "payment_intent.succeeded", intent := cxIntent }

/-- A processor that knows no charges: the charge retrieval raises. -/
def cxWorld : World := { charges := [] }

/-- An intent naming user `jane` with the save-info flag set. -/
def puIntent : Intent :=
  { id := "pi_2", latest_charge := "ch_1"
    metadata_bag := some (.valid [("42", .int 3)])
    metadata_save_info := some "true", metadata_username := some "jane"
    shipping := wShip }

def puEvent : Event := { type := "payment_intent.succeeded", intent := puIntent }

/-- The context `mkCtx` extracts from `wWorld`/`puEvent`. -/
def puCtx : Ctx :=
  { pid := "pi_2", bag_data := [("42", .int 3)], save_info := some "true"
    username := some "jane"
    shipping := { wShip with address := normalizeAddress wAddr }
    email := "j@x.com", grand_total := ((1999 : Int) : Rat) / 100
    eventType := "payment_intent.succeeded" }

/-- User `jane`'s stored profile, all defaults blank. -/
def wProfile : Profile :=
  { username := "jane", default_phone_number := none, default_country := none
    default_postcode := none, default_town_or_city := none
    default_street_address1 := none, default_street_address2 := none
    default_county := none }

/-- Store holding `jane`'s profile but no products: the profile save will
succeed and the order creation will then fail. -/
def wStoreProf : Store :=
  { orders := [], lineItems := [], profiles := [wProfile], products := []
    nextOrderId := 0 }

/-- An intent whose `bag` metadata is not valid JSON. -/
def mbIntent : Intent :=
  { id := "pi_3", latest_charge := "ch_1", metadata_bag := some .malformed
    metadata_save_info := none, metadata_username := none, shipping := wShip }

def mbEvent : Event := { type := "payment_intent.succeeded", intent := mbIntent }

/-- A charge with no billing email. -/
def nbCharge : Charge := { amount := 1999, billing_details_email := none }

/-- Processor world whose charge has no billing email (and the shipping
details of `wShip` carry none either). -/
def nbWorld : World := { charges := [("ch_1", nbCharge)] }

/-- The context `mkCtx` extracts from `nbWorld`/`wEvent`: the placeholder
email. -/
def nbCtx : Ctx :=
  { pid := "pi_1", bag_data := [("42", .int 3)], save_info := none
    username := none
    shipping := { wShip with address := normalizeAddress wAddr }
    email := "noemail@example.com", grand_total := ((1999 : Int) : Rat) / 100
    eventType := "payment_intent.succeeded" }

/-- The order the no-email delivery creates. -/
def nbOrder : Order := mkOrder nbCtx none 0


/-! ### Helper lemmas -/

theorem normField_idem (v : Option String) :
    normField (normField v) = normField v := by
  unfold normField
  split <;> simp_all

theorem normField_ne_empty (v : Option String) : normField v ≠ some "" := by
  unfold normField
  split <;> simp_all

theorem normalizeAddress_idem (a : Address) :
    normalizeAddress (normalizeAddress a) = normalizeAddress a := by
  simp [normalizeAddress, normField_idem]

theorem mkCtx_normalizeEvent (w : World) (ev : Event) :
    mkCtx w (normalizeEvent ev) = mkCtx w ev := by
  unfold mkCtx normalizeEvent
  cases chargeRetrieve w ev.intent.latest_charge <;>
    simp [normalizeAddress_idem]

/-- A context extracted by `mkCtx` carries the event's shipping address
already normalized. -/
theorem mkCtx_address {w : World} {ev : Event} {c : Ctx}
    (hc : mkCtx w ev = some c) :
    c.shipping.address = normalizeAddress ev.intent.shipping.address := by
  unfold mkCtx at hc
  dsimp only at hc
  cases hch : chargeRetrieve w ev.intent.latest_charge with
  | none => rw [hch] at hc; cases hc
  | some ch =>
    rw [hch] at hc
    dsimp only at hc
    injection hc with h
    rw [← h]

/-- `findProfile` reads only the profile table. -/
theorem findProfile_congr {s t : Store} (h : s.profiles = t.profiles)
    (u : String) : findProfile s u = findProfile t u := by
  simp [findProfile, h]

/-- On a malformed `bag` metadata value the extracted context, when the
charge resolves at all, carries the empty bag. -/
theorem mkCtx_bag_malformed {w : World} {ev : Event}
    (h : ev.intent.metadata_bag = some .malformed) :
    mkCtx w ev = none ∨ ∃ c, mkCtx w ev = some c ∧ c.bag_data = [] := by
  unfold mkCtx
  dsimp only
  rw [h]
  cases hch : chargeRetrieve w ev.intent.latest_charge with
  | none => exact Or.inl rfl
  | some ch =>
    dsimp only
    exact Or.inr ⟨_, rfl, rfl⟩

/-- `profileStep` never touches orders, line items, products or the order id
counter. -/
theorem profileStep_ok_fields {c : Ctx} {s : Store} {prof : Option String}
    {s1 : Store} (h : profileStep c s = Except.ok (prof, s1)) :
    s1.orders = s.orders ∧ s1.lineItems = s.lineItems ∧
    s1.products = s.products ∧ s1.nextOrderId = s.nextOrderId := by
  unfold profileStep at h
  split at h
  · obtain ⟨-, rfl⟩ := by simpa using h
    exact ⟨rfl, rfl, rfl, rfl⟩
  · split at h
    · obtain ⟨-, rfl⟩ := by simpa using h
      exact ⟨rfl, rfl, rfl, rfl⟩
    · split at h
      · exact absurd h (by simp)
      · split at h
        · obtain ⟨-, rfl⟩ := by simpa using h
          exact ⟨rfl, rfl, rfl, rfl⟩
        · obtain ⟨-, rfl⟩ := by simpa using h
          exact ⟨rfl, rfl, rfl, rfl⟩

/-- When the identity-tuple filter is empty, every pass of the retry loop
fails, adding one attempt and one second of sleep per unit of fuel. -/
theorem lookupGo_nil {c : Ctx} {s : Store}
    (h : s.orders.filter (identityMatch c) = []) :
    ∀ fuel att sl, lookupGo c s fuel att sl =
      .notFound (att + fuel) (sl + fuel) := by
  intro fuel
  induction fuel with
  | zero => intro att sl; simp [lookupGo]
  | succ n ih =>
    intro att sl
    rw [lookupGo, h]
    rw [ih (att + 1) (sl + 1)]
    have h1 : att + 1 + n = att + (n + 1) := by omega
    have h2 : sl + 1 + n = sl + (n + 1) := by omega
    rw [h1, h2]

theorem orderLookup_of_filter_nil {c : Ctx} {s : Store}
    (h : s.orders.filter (identityMatch c) = []) :
    orderLookup c s = .notFound 5 5 := by
  rw [orderLookup, lookupGo_nil h]

theorem orderLookup_of_filter_single {c : Ctx} {s : Store} {o : Order}
    (h : s.orders.filter (identityMatch c) = [o]) :
    orderLookup c s = .found o 1 0 := by
  rw [orderLookup, lookupGo, h]

theorem orderLookup_of_filter_multi {c : Ctx} {s : Store} {o1 o2 : Order}
    {rest : List Order}
    (h : s.orders.filter (identityMatch c) = o1 :: o2 :: rest) :
    orderLookup c s = .multiple 1 0 := by
  rw [orderLookup, lookupGo, h]

/-- The retry loop reports `notFound` exactly when no order matches, after
five attempts and five seconds of sleep. -/
theorem orderLookup_notFound_inv {c : Ctx} {s : Store} {att sl : Nat}
    (h : orderLookup c s = .notFound att sl) :
    s.orders.filter (identityMatch c) = [] ∧ att = 5 ∧ sl = 5 := by
  rcases hf : s.orders.filter (identityMatch c) with - | ⟨o1, - | ⟨o2, rest⟩⟩
  · rw [orderLookup_of_filter_nil hf] at h
    cases h
    exact ⟨rfl, rfl, rfl⟩
  · rw [orderLookup_of_filter_single hf] at h
    cases h
  · rw [orderLookup_of_filter_multi hf] at h
    cases h

/-- The retry loop finds an order exactly when it is the unique match; in
this race-free model that happens on the first attempt with no sleep. -/
theorem orderLookup_found_inv {c : Ctx} {s : Store} {o : Order} {att sl : Nat}
    (h : orderLookup c s = .found o att sl) :
    s.orders.filter (identityMatch c) = [o] ∧ att = 1 ∧ sl = 0 := by
  rcases hf : s.orders.filter (identityMatch c) with - | ⟨o1, - | ⟨o2, rest⟩⟩
  · rw [orderLookup_of_filter_nil hf] at h
    cases h
  · rw [orderLookup_of_filter_single hf] at h
    cases h
    exact ⟨rfl, rfl, rfl⟩
  · rw [orderLookup_of_filter_multi hf] at h
    cases h

theorem ieqOpt_self (v : Option String) : ieqOpt v v = true := by
  cases v <;> simp [ieqOpt]

/-- An order built from a context matches that context's identity tuple. -/
theorem identityMatch_mkOrder (c : Ctx) (prof : Option String) (oid : Nat) :
    identityMatch c (mkOrder c prof oid) = true := by
  simp [identityMatch, mkOrder, ieqOpt_self]

/-- A `MultipleObjectsReturned` escape happens on the first attempt, before
any sleep. -/
theorem orderLookup_multiple_inv {c : Ctx} {s : Store} {att sl : Nat}
    (h : orderLookup c s = .multiple att sl) : att = 1 ∧ sl = 0 := by
  rcases hf : s.orders.filter (identityMatch c) with - | ⟨o1, - | ⟨o2, rest⟩⟩
  · rw [orderLookup_of_filter_nil hf] at h
    cases h
  · rw [orderLookup_of_filter_single hf] at h
    cases h
  · rw [orderLookup_of_filter_multi hf] at h
    cases h
    exact ⟨rfl, rfl⟩

theorem addSizeItems_eq (oid : Nat) (item_id : String) :
    ∀ (l : List (String × Int)) (s : Store),
      addSizeItems s oid item_id l =
        { s with lineItems := s.lineItems ++ l.map fun p =>
            { order_id := oid, product_id := item_id, quantity := p.2
              product_size := some p.1 } } := by
  intro l
  induction l with
  | nil => intro s; simp [addSizeItems]
  | cons hd tl ih =>
    intro s
    rw [addSizeItems, ih]
    simp [addLineItem]

/-- `createLineItems` only ever appends line items: all other store fields
come through unchanged, whether it succeeds or raises partway. -/
theorem createLineItems_shape :
    ∀ (bag : Bag) (s : Store) (oid : Nat),
      ∃ extra : List OrderLineItem,
        (createLineItems s oid bag).1 =
          { s with lineItems := s.lineItems ++ extra } := by
  intro bag
  induction bag with
  | nil => intro s oid; exact ⟨[], by simp [createLineItems]⟩
  | cons hd tl ih =>
    intro s oid
    obtain ⟨item_id, item_data⟩ := hd
    rcases hp : findProduct s item_id with - | prod
    · exact ⟨[], by simp [createLineItems, hp]⟩
    · cases item_data with
      | int q =>
        obtain ⟨extra, hx⟩ :=
          ih (addLineItem s
            { order_id := oid, product_id := item_id, quantity := q
              product_size := none }) oid
        refine ⟨{ order_id := oid, product_id := item_id, quantity := q
                  product_size := none } :: extra, ?_⟩
        rcases hr : createLineItems (addLineItem s
            { order_id := oid, product_id := item_id, quantity := q
              product_size := none }) oid tl with ⟨s2, n, e⟩
        rw [hr] at hx
        simp only [createLineItems, hp, hr]
        simp at hx
        rw [hx]
        simp [addLineItem]
      | obj fields =>
        rcases hk : fields.lookup "items_by_size" with - | sizes
        · exact ⟨[], by simp [createLineItems, hp, hk]⟩
        · obtain ⟨extra, hx⟩ := ih (addSizeItems s oid item_id sizes) oid
          refine ⟨(sizes.map fun p =>
            { order_id := oid, product_id := item_id, quantity := p.2
              product_size := some p.1 }) ++ extra, ?_⟩
          rcases hr : createLineItems (addSizeItems s oid item_id sizes) oid tl
            with ⟨s2, n, e⟩
          rw [hr] at hx
          simp only [createLineItems, hp, hk, hr]
          simp at hx
          rw [hx]
          simp [addSizeItems_eq]
      | other => exact ⟨[], by simp [createLineItems, hp]⟩

/-- `bagEntryOk` only reads the product table. -/
theorem bagEntryOk_congr {s t : Store} (h : s.products = t.products)
    (item_id : String) (e : BagEntry) :
    bagEntryOk s item_id e = bagEntryOk t item_id e := by
  cases e <;> simp [bagEntryOk, findProduct, h]

/-- On a bag whose entries are all well formed over the current store,
`createLineItems` succeeds and appends exactly the line items the spec
prescribes, counting them. -/
theorem createLineItems_ok :
    ∀ (bag : Bag) (s : Store) (oid : Nat),
      (∀ p ∈ bag, bagEntryOk s p.1 p.2 = true) →
      createLineItems s oid bag =
        ({ s with lineItems := s.lineItems ++ specLineItems oid bag },
         (specLineItems oid bag).length, none) := by
  intro bag
  induction bag with
  | nil => intro s oid h; simp [createLineItems, specLineItems]
  | cons hd tl ih =>
    intro s oid h
    obtain ⟨item_id, item_data⟩ := hd
    have hhd : bagEntryOk s item_id item_data = true :=
      h (item_id, item_data) (by simp)
    have htl : ∀ p ∈ tl, bagEntryOk s p.1 p.2 = true := by
      intro p hp; exact h p (by simp [hp])
    cases item_data with
    | int q =>
      rcases hp : findProduct s item_id with - | prod
      · rw [bagEntryOk, hp] at hhd; simp at hhd
      · have htl1 : ∀ p ∈ tl, bagEntryOk (addLineItem s
            { order_id := oid, product_id := item_id, quantity := q
              product_size := none }) p.1 p.2 = true := by
          intro p hp2
          rw [bagEntryOk_congr (show (addLineItem s
            { order_id := oid, product_id := item_id, quantity := q
              product_size := none }).products = s.products from rfl)]
          exact htl p hp2
        have h2 := ih (addLineItem s
          { order_id := oid, product_id := item_id, quantity := q
            product_size := none }) oid htl1
        simp only [createLineItems, hp, h2]
        simp [addLineItem, specLineItems, specEntryItems, Nat.add_comm]
    | obj fields =>
      rcases hp : findProduct s item_id with - | prod
      · rw [bagEntryOk, hp] at hhd; simp at hhd
      · rcases hk : fields.lookup "items_by_size" with - | sizes
        · rw [bagEntryOk, hp, hk] at hhd; simp at hhd
        · have htl1 : ∀ p ∈ tl,
              bagEntryOk (addSizeItems s oid item_id sizes) p.1 p.2 = true := by
            intro p hp2
            rw [bagEntryOk_congr (show (addSizeItems s oid item_id
              sizes).products = s.products by rw [addSizeItems_eq])]
            exact htl p hp2
          have h2 := ih (addSizeItems s oid item_id sizes) oid htl1
          simp only [createLineItems, hp, hk, h2]
          simp [addSizeItems_eq, specLineItems, specEntryItems, hk,
            Nat.add_comm]
    | other => rw [bagEntryOk] at hhd; simp at hhd

theorem find_replace {u : String} (q : Profile) (hq : q.username = u) :
    ∀ (l : List Profile) (p : Profile),
      l.find? (fun r => r.username == u) = some p →
      (l.map fun r => if r.username = q.username then q else r).find?
        (fun r => r.username == u) = some q := by
  intro l
  induction l with
  | nil => intro p h; simp at h
  | cons hd tl ih =>
    intro p h
    by_cases hh : hd.username = u
    · have hpos : hd.username = q.username := by rw [hq, hh]
      simp only [List.map_cons, if_pos hpos]
      rw [List.find?_cons_of_pos _ (by simp [hq])]
    · rw [List.find?_cons_of_neg _ (by simpa using hh)] at h
      have h2 := ih p h
      have hne : ¬ hd.username = q.username := by rw [hq]; exact hh
      simp only [List.map_cons, if_neg hne]
      rw [List.find?_cons_of_neg _ (by simpa using hh)]
      exact h2

/-- Saving an updated copy of a stored profile makes the update the one the
next lookup sees. -/
theorem findProfile_saveProfile {s : Store} {u : String} {p : Profile}
    (h : findProfile s u = some p) (q : Profile) (hq : q.username = p.username) :
    findProfile (saveProfile s q) u = some q := by
  have hu : p.username = u := by
    have := List.find?_some h
    simpa using this
  unfold findProfile saveProfile
  exact find_replace q (hq.trans hu) s.profiles p h

/-- Every invocation of the success handler performs at most one
`Order.objects.create`. -/
theorem handler_ordersCreated_le_one (w : World) (ev : Event) (s : Store) :
    (handle_payment_intent_succeeded w ev s).effects.ordersCreated ≤ 1 := by
  unfold handle_payment_intent_succeeded
  cases hctx : mkCtx w ev with
  | none => simp [HResult.effects, effZero]
  | some c =>
    dsimp only
    cases hps : profileStep c s with
    | error e => simp [HResult.effects, effZero]
    | ok pr =>
      obtain ⟨prof, s1⟩ := pr
      dsimp only
      cases hl : orderLookup c s1 with
      | found o att sl => simp [HResult.effects]
      | multiple att sl => simp [HResult.effects, effZero]
      | notFound att sl =>
        dsimp only [createPhase]
        rcases hr : createLineItems
            (createOrderInStore s1 (mkOrder c prof s1.nextOrderId))
            (mkOrder c prof s1.nextOrderId).id c.bag_data with ⟨s2, n, e⟩
        cases e <;> simp [HResult.effects]

/-- Any order present after the handler ran but not before is the
`mkOrder` record built from the extracted context. -/
theorem handler_new_order {w : World} {ev : Event} {s : Store} {o : Order}
    (ho : o ∈ ((handle_payment_intent_succeeded w ev s).store).orders)
    (hn : o ∉ s.orders) :
    ∃ c prof, mkCtx w ev = some c ∧ o = mkOrder c prof s.nextOrderId := by
  unfold handle_payment_intent_succeeded at ho
  cases hctx : mkCtx w ev with
  | none => rw [hctx] at ho; simp [HResult.store] at ho; exact absurd ho hn
  | some c =>
    rw [hctx] at ho
    dsimp only at ho
    cases hps : profileStep c s with
    | error e =>
      rw [hps] at ho; simp [HResult.store] at ho; exact absurd ho hn
    | ok pr =>
      obtain ⟨prof, s1⟩ := pr
      rw [hps] at ho
      dsimp only at ho
      obtain ⟨ho1, -, -, hid⟩ := profileStep_ok_fields hps
      cases hl : orderLookup c s1 with
      | found o2 att sl =>
        rw [hl] at ho; simp [HResult.store] at ho
        rw [ho1] at ho; exact absurd ho hn
      | multiple att sl =>
        rw [hl] at ho; simp [HResult.store] at ho
        rw [ho1] at ho; exact absurd ho hn
      | notFound att sl =>
        rw [hl] at ho
        simp only [createPhase] at ho
        obtain ⟨extra, hx⟩ := createLineItems_shape c.bag_data
          (createOrderInStore s1 (mkOrder c prof s1.nextOrderId))
          (mkOrder c prof s1.nextOrderId).id
        rcases hr : createLineItems
            (createOrderInStore s1 (mkOrder c prof s1.nextOrderId))
            (mkOrder c prof s1.nextOrderId).id c.bag_data with ⟨s2, n, e⟩
        rw [hr] at ho hx
        simp at hx
        cases e with
        | none =>
          simp only [HResult.store] at ho
          rw [hx] at ho
          simp only [createOrderInStore] at ho
          rw [List.mem_append] at ho
          rcases ho with ho | ho
          · rw [ho1] at ho; exact absurd ho hn
          · rw [List.mem_singleton] at ho
            exact ⟨c, prof, rfl, by rw [ho, hid]⟩
        | some e =>
          simp only [HResult.store] at ho
          rw [hx] at ho
          simp only [deleteOrder] at ho
          rw [List.mem_filter] at ho
          obtain ⟨ho, hne⟩ := ho
          simp only [createOrderInStore] at ho
          rw [List.mem_append] at ho
          rcases ho with ho | ho
          · rw [ho1] at ho; exact absurd ho hn
          · rw [List.mem_singleton] at ho
            exact ⟨c, prof, rfl, by rw [ho, hid]⟩

/-- The handler's lookup-attempt and sleep counters over all paths: never
more than five of either, and a path that created an order first exhausted
all five attempts and slept five seconds. -/
theorem handler_retry_effects (w : World) (ev : Event) (s : Store) :
    (handle_payment_intent_succeeded w ev s).effects.lookups ≤ 5 ∧
    (handle_payment_intent_succeeded w ev s).effects.sleepSeconds ≤ 5 ∧
    ((handle_payment_intent_succeeded w ev s).effects.ordersCreated = 1 →
      (handle_payment_intent_succeeded w ev s).effects.lookups = 5 ∧
      (handle_payment_intent_succeeded w ev s).effects.sleepSeconds = 5) := by
  unfold handle_payment_intent_succeeded
  cases hctx : mkCtx w ev with
  | none => simp [HResult.effects, effZero]
  | some c =>
    dsimp only
    cases hps : profileStep c s with
    | error e => simp [HResult.effects, effZero]
    | ok pr =>
      obtain ⟨prof, s1⟩ := pr
      dsimp only
      cases hl : orderLookup c s1 with
      | found o att sl =>
        obtain ⟨-, ha, hs⟩ := orderLookup_found_inv hl
        subst ha; subst hs
        simp [HResult.effects]
      | multiple att sl =>
        obtain ⟨ha, hs⟩ := orderLookup_multiple_inv hl
        subst ha; subst hs
        simp [HResult.effects, effZero]
      | notFound att sl =>
        obtain ⟨-, ha, hs⟩ := orderLookup_notFound_inv hl
        subst ha; subst hs
        dsimp only [createPhase]
        rcases hr : createLineItems
            (createOrderInStore s1 (mkOrder c prof s1.nextOrderId))
            (mkOrder c prof s1.nextOrderId).id c.bag_data with ⟨s2, n, e⟩
        cases e <;> simp [HResult.effects]

/-! ### Claim theorems -/

/-- C1: if an order with the event's identity tuple has already been
committed (exactly one such row), a second delivery of the same event
creates no new order: the handler answers 200 with the "Order already
existed" diagnostic, the order table is unchanged and still holds exactly
one row for the tuple, no creation is recorded — and, for any invocation
whatsoever, at most one order creation is ever performed. -/
theorem second_delivery_idempotent
    (w : World) (ev : Event) (s : Store) (c : Ctx) (prof : Option String)
    (s1 : Store)
    (hc : mkCtx w ev = some c)
    (hp : profileStep c s = Except.ok (prof, s1))
    (hone : (s.orders.filter (identityMatch c)).length = 1) :
    handle_payment_intent_succeeded w ev s =
      .ok { status := 200
            content := "Webhook received: " ++ c.eventType ++
              " | Order already existed — confirmation email sent." }
        s1
        { ordersCreated := 0, lineItemsCreated := 0, lookups := 1
          sleepSeconds := 0, emailsSent := 1 } ∧
    s1.orders = s.orders ∧
    (((handle_payment_intent_succeeded w ev s).store).orders.filter
      (identityMatch c)).length = 1 ∧
    (handle_payment_intent_succeeded w ev s).effects.ordersCreated = 0 ∧
    ∀ (w2 : World) (ev2 : Event) (s2 : Store),
      (handle_payment_intent_succeeded w2 ev2 s2).effects.ordersCreated ≤ 1 := by
  obtain ⟨ho1, -, -, -⟩ := profileStep_ok_fields hp
  obtain ⟨o, hfo⟩ := List.length_eq_one.mp hone
  have hf1 : s1.orders.filter (identityMatch c) = [o] := by rw [ho1, hfo]
  have hl : orderLookup c s1 = .found o 1 0 := orderLookup_of_filter_single hf1
  have hmain : handle_payment_intent_succeeded w ev s =
      .ok { status := 200
            content := "Webhook received: " ++ c.eventType ++
              " | Order already existed — confirmation email sent." }
        s1
        { ordersCreated := 0, lineItemsCreated := 0, lookups := 1
          sleepSeconds := 0, emailsSent := 1 } := by
    unfold handle_payment_intent_succeeded
    rw [hc]
    dsimp only
    rw [hp]
    dsimp only
    rw [hl]
  refine ⟨hmain, ho1, ?_, ?_, ?_⟩
  · rw [hmain]
    simp only [HResult.store]
    rw [hf1]
    rfl
  · rw [hmain]
    rfl
  · intro w2 ev2 s2
    exact handler_ordersCreated_le_one w2 ev2 s2

/-- C1 witness: the concrete second delivery against the committed store. -/
theorem second_delivery_idempotent_witness :
    handle_payment_intent_succeeded wWorld wEvent wStoreAfter =
      .ok { status := 200
            content := "Webhook received: " ++ wCtx.eventType ++
              " | Order already existed — confirmation email sent." }
        wStoreAfter
        { ordersCreated := 0, lineItemsCreated := 0, lookups := 1
          sleepSeconds := 0, emailsSent := 1 } ∧
    wStoreAfter.orders = wStoreAfter.orders ∧
    (((handle_payment_intent_succeeded wWorld wEvent
        wStoreAfter).store).orders.filter (identityMatch wCtx)).length = 1 ∧
    (handle_payment_intent_succeeded wWorld wEvent
      wStoreAfter).effects.ordersCreated = 0 ∧
    (handle_payment_intent_succeeded wWorld wEvent
      wStore).effects.ordersCreated ≤ 1 := by
  have h := second_delivery_idempotent wWorld wEvent wStoreAfter wCtx none
    wStoreAfter rfl rfl
    (by simp [wStoreAfter, wOrder, List.filter, identityMatch_mkOrder])
  exact ⟨h.1, h.2.1, h.2.2.1, h.2.2.2.1, h.2.2.2.2 wWorld wEvent wStore⟩

/-- C2: every invocation makes at most five order-lookup attempts and sleeps
at most five seconds; the loop reports "no matching order" only after
exactly five attempts and five one-second pauses (so an invocation that
went on to create an order first exhausted the full ~5-second poll). -/
theorem retry_loop_bounded (w : World) (ev : Event) (s : Store) :
    (handle_payment_intent_succeeded w ev s).effects.lookups ≤ 5 ∧
    (handle_payment_intent_succeeded w ev s).effects.sleepSeconds ≤ 5 ∧
    (∀ (c : Ctx) (s1 : Store) (att sl : Nat),
      orderLookup c s1 = .notFound att sl →
      s1.orders.filter (identityMatch c) = [] ∧ att = 5 ∧ sl = 5) ∧
    ((handle_payment_intent_succeeded w ev s).effects.ordersCreated = 1 →
      (handle_payment_intent_succeeded w ev s).effects.lookups = 5 ∧
      (handle_payment_intent_succeeded w ev s).effects.sleepSeconds = 5) := by
  obtain ⟨h1, h2, h3⟩ := handler_retry_effects w ev s
  exact ⟨h1, h2, fun c s1 att sl h => orderLookup_notFound_inv h, h3⟩

/-- C2 witness: the first delivery against the empty store polls all five
attempts, sleeps five seconds, then creates. -/
theorem retry_loop_bounded_witness :
    (handle_payment_intent_succeeded wWorld wEvent wStore).effects.lookups
      ≤ 5 ∧
    (handle_payment_intent_succeeded wWorld wEvent
      wStore).effects.sleepSeconds ≤ 5 ∧
    (wStore.orders.filter (identityMatch wCtx) = [] ∧ 5 = 5 ∧ 5 = 5) ∧
    ((handle_payment_intent_succeeded wWorld wEvent wStore).effects.lookups
        = 5 ∧
      (handle_payment_intent_succeeded wWorld wEvent
        wStore).effects.sleepSeconds = 5) := by
  have h := retry_loop_bounded wWorld wEvent wStore
  exact ⟨h.1, h.2.1, h.2.2.1 wCtx wStore 5 5 rfl, h.2.2.2 rfl⟩

/-- C3: whenever the success handler answers 500 (a creation-path failure),
the order table is exactly as it was before the invocation — the
just-created order was deleted — no order matches the event's identity
tuple, and the response carries the error detail of the exception that
interrupted creation. -/
theorem create_failure_rolls_back
    (w : World) (ev : Event) (s : Store) (c : Ctx) (resp : Response)
    (s' : Store) (eff : Effects)
    (hwf : ∀ o ∈ s.orders, o.id < s.nextOrderId)
    (hc : mkCtx w ev = some c)
    (h : handle_payment_intent_succeeded w ev s = .ok resp s' eff)
    (h500 : resp.status = 500) :
    s'.orders = s.orders ∧
    s'.orders.filter (identityMatch c) = [] ∧
    ∃ e : Exn, resp.content =
      "Webhook error: Could not create order — " ++ exnMsg e := by
  unfold handle_payment_intent_succeeded at h
  rw [hc] at h
  dsimp only at h
  cases hps : profileStep c s with
  | error e => rw [hps] at h; dsimp only at h; cases h
  | ok pr =>
    obtain ⟨prof, s1⟩ := pr
    rw [hps] at h
    dsimp only at h
    obtain ⟨ho1, -, -, hid⟩ := profileStep_ok_fields hps
    cases hl : orderLookup c s1 with
    | found o att sl =>
      rw [hl] at h
      dsimp only at h
      injection h with h1 h2 h3
      rw [← h1] at h500
      simp at h500
    | multiple att sl =>
      rw [hl] at h
      dsimp only at h
      cases h
    | notFound att sl =>
      rw [hl] at h
      dsimp only [createPhase] at h
      obtain ⟨hfil, -, -⟩ := orderLookup_notFound_inv hl
      obtain ⟨extra, hx⟩ := createLineItems_shape c.bag_data
        (createOrderInStore s1 (mkOrder c prof s1.nextOrderId))
        (mkOrder c prof s1.nextOrderId).id
      rcases hr : createLineItems
          (createOrderInStore s1 (mkOrder c prof s1.nextOrderId))
          (mkOrder c prof s1.nextOrderId).id c.bag_data with ⟨s2, n, e⟩
      rw [hr] at h hx
      simp at hx
      cases e with
      | none =>
        dsimp only at h
        injection h with h1 h2 h3
        rw [← h1] at h500
        simp at h500
      | some e =>
        dsimp only at h
        injection h with h1 h2 h3
        have hordid : (mkOrder c prof s1.nextOrderId).id = s1.nextOrderId :=
          rfl
        have hso : s'.orders = s.orders := by
          rw [← h2]
          simp only [deleteOrder]
          rw [hx]
          simp only [createOrderInStore]
          rw [List.filter_append]
          have hkeep : s1.orders.filter
              (fun o => o.id != (mkOrder c prof s1.nextOrderId).id)
              = s1.orders := by
            refine List.filter_eq_self.mpr ?_
            intro o ho
            have hlt : o.id < s.nextOrderId := hwf o (by rw [← ho1]; exact ho)
            rw [hordid, hid]
            simp
            omega
          rw [hkeep, ho1]
          simp [hordid]
        refine ⟨hso, ?_, e, by rw [← h1]⟩
        rw [hso, ← ho1, hfil]

/-- C3 witness: the concrete failed creation (product 42 missing) rolls the
order table back to empty and answers 500 with the error detail. -/
theorem create_failure_rolls_back_witness :
    wFailStore.orders = wStoreNP.orders ∧
    wFailStore.orders.filter (identityMatch wCtx) = [] ∧
    ∃ e : Exn, wFailResp.content =
      "Webhook error: Could not create order — " ++ exnMsg e :=
  create_failure_rolls_back wWorld wEvent wStoreNP wCtx wFailResp wFailStore
    wFailEff (by simp [wStoreNP]) rfl rfl rfl

/-- C4: on a bag whose products all exist and whose structured entries carry
their size map, the creation loop produces exactly the line items the spec
prescribes — one sizeless item per integer entry, one item per size key per
structured entry — and when the handler takes the creation path it appends
exactly those items to the store and counts them. -/
theorem bag_yields_line_items :
    (∀ (s : Store) (oid : Nat) (bag : Bag),
      (∀ p ∈ bag, bagEntryOk s p.1 p.2 = true) →
      createLineItems s oid bag =
        ({ s with lineItems := s.lineItems ++ specLineItems oid bag },
         (specLineItems oid bag).length, none)) ∧
    (∀ (oid : Nat) (item_id : String) (q : Int),
      specLineItems oid [(item_id, .int q)] =
        [{ order_id := oid, product_id := item_id, quantity := q
           product_size := none }]) ∧
    (∀ (oid : Nat) (item_id : String) (sizes : List (String × Int)),
      specLineItems oid [(item_id, .obj [("items_by_size", sizes)])] =
        sizes.map fun p =>
          { order_id := oid, product_id := item_id, quantity := p.2
            product_size := some p.1 }) ∧
    (∀ (w : World) (ev : Event) (s : Store) (c : Ctx) (prof : Option String)
      (s1 : Store) (att sl : Nat),
      mkCtx w ev = some c →
      profileStep c s = Except.ok (prof, s1) →
      orderLookup c s1 = .notFound att sl →
      (∀ p ∈ c.bag_data, bagEntryOk s1 p.1 p.2 = true) →
      ((handle_payment_intent_succeeded w ev s).store).lineItems =
        s1.lineItems ++ specLineItems s1.nextOrderId c.bag_data ∧
      (handle_payment_intent_succeeded w ev s).effects.lineItemsCreated =
        (specLineItems s1.nextOrderId c.bag_data).length) := by
  refine ⟨fun s oid bag h => createLineItems_ok bag s oid h, ?_, ?_, ?_⟩
  · intro oid item_id q
    simp [specLineItems, specEntryItems]
  · intro oid item_id sizes
    simp [specLineItems, specEntryItems, List.lookup]
  · intro w ev s c prof s1 att sl hc hp hl hok
    unfold handle_payment_intent_succeeded
    rw [hc]
    dsimp only
    rw [hp]
    dsimp only
    rw [hl]
    dsimp only [createPhase]
    have hok1 : ∀ p ∈ c.bag_data,
        bagEntryOk (createOrderInStore s1 (mkOrder c prof s1.nextOrderId))
          p.1 p.2 = true := by
      intro p hp2
      rw [bagEntryOk_congr (show (createOrderInStore s1
        (mkOrder c prof s1.nextOrderId)).products = s1.products from rfl)]
      exact hok p hp2
    have hco := createLineItems_ok c.bag_data
      (createOrderInStore s1 (mkOrder c prof s1.nextOrderId))
      (mkOrder c prof s1.nextOrderId).id hok1
    rw [hco]
    dsimp only [HResult.store, HResult.effects]
    exact ⟨rfl, rfl⟩

/-- C4 witness: bag `("42" ↦ 3)` yields exactly one sizeless line item for
product 42, and bag `("7" ↦ sizes M:2, L:1)` yields exactly the two sized
line items for product 7. -/
theorem bag_yields_line_items_witness :
    createLineItems wStore 0 [("42", .int 3)] =
      ({ wStore with lineItems :=
          wStore.lineItems ++ specLineItems 0 [("42", .int 3)] },
       (specLineItems 0 [("42", .int 3)]).length, none) ∧
    specLineItems 0 [("42", .int 3)] =
      [{ order_id := 0, product_id := "42", quantity := 3
         product_size := none }] ∧
    createLineItems wStore7 0
        [("7", .obj [("items_by_size", [("M", 2), ("L", 1)])])] =
      ({ wStore7 with lineItems := wStore7.lineItems ++
          specLineItems 0 [("7", .obj [("items_by_size", [("M", 2), ("L", 1)])])] },
       (specLineItems 0
         [("7", .obj [("items_by_size", [("M", 2), ("L", 1)])])]).length,
       none) ∧
    specLineItems 0 [("7", .obj [("items_by_size", [("M", 2), ("L", 1)])])] =
      [{ order_id := 0, product_id := "7", quantity := 2
         product_size := some "M" },
       { order_id := 0, product_id := "7", quantity := 1
         product_size := some "L" }] := by
  have h := bag_yields_line_items
  refine ⟨h.1 wStore 0 [("42", .int 3)] (by decide),
    h.2.1 0 "42" 3,
    h.1 wStore7 0 [("7", .obj [("items_by_size", [("M", 2), ("L", 1)])])]
      (by decide),
    (h.2.2.1 0 "7" [("M", 2), ("L", 1)]).trans (by decide)⟩

/-- C5 counterexample: at this concrete event the processor-side charge
lookup fails, and the handler does NOT answer with an HTTP 500 response —
the exception escapes the handler (`stripe.Charge.retrieve` is outside any
`try` block in the source). -/
theorem charge_lookup_failure_escapes :
    handle_payment_intent_succeeded cxWorld cxEvent wStore =
      .exn .chargeRetrieveFailed wStore effZero ∧
    (handle_payment_intent_succeeded cxWorld cxEvent wStore).isExn = true :=
  ⟨rfl, rfl⟩

/-- C5 (amended): only a product lookup failure during line-item
construction is surfaced by the handler itself as a 500 response with
diagnostic text; a failing charge retrieval and a failing profile lookup
escape the handler as exceptions (left to the surrounding framework). -/
theorem lookup_failures_surfacing :
    (∀ (w : World) (ev : Event) (s : Store),
      chargeRetrieve w ev.intent.latest_charge = none →
      handle_payment_intent_succeeded w ev s =
        .exn .chargeRetrieveFailed s effZero) ∧
    (∀ (w : World) (ev : Event) (s : Store) (c : Ctx) (u : String),
      mkCtx w ev = some c → c.username = some u → u ≠ "" →
      u ≠ "AnonymousUser" → findProfile s u = none →
      handle_payment_intent_succeeded w ev s =
        .exn .profileDoesNotExist s effZero) ∧
    (∀ (w : World) (ev : Event) (s : Store) (c : Ctx) (prof : Option String)
      (s1 : Store) (att sl : Nat) (s2 : Store) (n : Nat) (item_id : String),
      mkCtx w ev = some c →
      profileStep c s = Except.ok (prof, s1) →
      orderLookup c s1 = .notFound att sl →
      createLineItems (createOrderInStore s1 (mkOrder c prof s1.nextOrderId))
        (mkOrder c prof s1.nextOrderId).id c.bag_data =
        (s2, n, some (.productDoesNotExist item_id)) →
      handle_payment_intent_succeeded w ev s =
        .ok { status := 500
              content := "Webhook error: Could not create order — " ++
                exnMsg (.productDoesNotExist item_id) }
          (deleteOrder s2 (mkOrder c prof s1.nextOrderId).id)
          { ordersCreated := 1, lineItemsCreated := n, lookups := att
            sleepSeconds := sl, emailsSent := 0 }) := by
  refine ⟨?_, ?_, ?_⟩
  · intro w ev s h
    have hctx : mkCtx w ev = none := by
      unfold mkCtx
      dsimp only
      rw [h]
    unfold handle_payment_intent_succeeded
    rw [hctx]
  · intro w ev s c u hc hu hne1 hne2 hfp
    have hps : profileStep c s = Except.error .profileDoesNotExist := by
      unfold profileStep
      rw [hu]
      dsimp only
      rw [if_neg (by simp [hne1, hne2])]
      rw [hfp]
    unfold handle_payment_intent_succeeded
    rw [hc]
    dsimp only
    rw [hps]
  · intro w ev s c prof s1 att sl s2 n item_id hc hp hl hr
    unfold handle_payment_intent_succeeded
    rw [hc]
    dsimp only
    rw [hp]
    dsimp only
    rw [hl]
    dsimp only [createPhase]
    rw [hr]

/-- C5 amended witness: the three concrete failing scenarios. -/
theorem lookup_failures_surfacing_witness :
    handle_payment_intent_succeeded cxWorld cxEvent wStoreNP =
      .exn .chargeRetrieveFailed wStoreNP effZero ∧
    handle_payment_intent_succeeded wWorld puEvent wStore =
      .exn .profileDoesNotExist wStore effZero ∧
    handle_payment_intent_succeeded wWorld wEvent wStoreNP =
      .ok wFailResp wFailStore wFailEff := by
  have h := lookup_failures_surfacing
  refine ⟨h.1 cxWorld cxEvent wStoreNP rfl,
    h.2.1 wWorld puEvent wStore puCtx "jane" rfl rfl (by decide) (by decide)
      rfl, ?_⟩
  exact h.2.2 wWorld wEvent wStoreNP wCtx none wStoreNP 5 5
    (createOrderInStore wStoreNP (mkOrder wCtx none wStoreNP.nextOrderId))
    0 "42" rfl rfl rfl rfl

/-- C6: address normalization — no normalized field is the empty string;
every order the handler creates stores its address fields with empty
strings replaced by absent; and running the handler on an event whose
address was already normalized is indistinguishable from running it on the
raw event (empty string and absent are never distinct identities). -/
theorem address_fields_normalized :
    (∀ a : Address,
      (normalizeAddress a).line1 ≠ some "" ∧
      (normalizeAddress a).line2 ≠ some "" ∧
      (normalizeAddress a).city ≠ some "" ∧
      (normalizeAddress a).state ≠ some "" ∧
      (normalizeAddress a).postal_code ≠ some "" ∧
      (normalizeAddress a).country ≠ some "") ∧
    (∀ (w : World) (ev : Event) (s : Store) (o : Order),
      o ∈ ((handle_payment_intent_succeeded w ev s).store).orders →
      o ∉ s.orders →
      o.country ≠ some "" ∧ o.postcode ≠ some "" ∧
      o.town_or_city ≠ some "" ∧ o.street_address1 ≠ some "" ∧
      o.street_address2 ≠ some "" ∧ o.county ≠ some "") ∧
    (∀ (w : World) (ev : Event) (s : Store),
      handle_payment_intent_succeeded w (normalizeEvent ev) s =
        handle_payment_intent_succeeded w ev s) := by
  refine ⟨?_, ?_, ?_⟩
  · intro a
    exact ⟨normField_ne_empty _, normField_ne_empty _, normField_ne_empty _,
      normField_ne_empty _, normField_ne_empty _, normField_ne_empty _⟩
  · intro w ev s o ho hn
    obtain ⟨c, prof, hc, rfl⟩ := handler_new_order ho hn
    have ha := mkCtx_address hc
    refine ⟨?_, ?_, ?_, ?_, ?_, ?_⟩
    · rw [show (mkOrder c prof s.nextOrderId).country =
          c.shipping.address.country from rfl, ha]
      exact normField_ne_empty _
    · rw [show (mkOrder c prof s.nextOrderId).postcode =
          c.shipping.address.postal_code from rfl, ha]
      exact normField_ne_empty _
    · rw [show (mkOrder c prof s.nextOrderId).town_or_city =
          c.shipping.address.city from rfl, ha]
      exact normField_ne_empty _
    · rw [show (mkOrder c prof s.nextOrderId).street_address1 =
          c.shipping.address.line1 from rfl, ha]
      exact normField_ne_empty _
    · rw [show (mkOrder c prof s.nextOrderId).street_address2 =
          c.shipping.address.line2 from rfl, ha]
      exact normField_ne_empty _
    · rw [show (mkOrder c prof s.nextOrderId).county =
          c.shipping.address.state from rfl, ha]
      exact normField_ne_empty _
  · intro w ev s
    unfold handle_payment_intent_succeeded
    rw [mkCtx_normalizeEvent]

/-- C6 witness: the order created from the concrete event (whose `line2`
arrived as `""`) stores no empty-string address field, and normalizing the
event first changes nothing. -/
theorem address_fields_normalized_witness :
    (wOrder.country ≠ some "" ∧ wOrder.postcode ≠ some "" ∧
     wOrder.town_or_city ≠ some "" ∧ wOrder.street_address1 ≠ some "" ∧
     wOrder.street_address2 ≠ some "" ∧ wOrder.county ≠ some "") ∧
    handle_payment_intent_succeeded wWorld (normalizeEvent wEvent) wStore =
      handle_payment_intent_succeeded wWorld wEvent wStore := by
  have h := address_fields_normalized
  refine ⟨h.2.1 wWorld wEvent wStore wOrder ?_ ?_,
    h.2.2 wWorld wEvent wStore⟩
  · have hor : ((handle_payment_intent_succeeded wWorld wEvent
        wStore).store).orders = [wOrder] := rfl
    rw [hor]
    exact List.mem_singleton.mpr rfl
  · simp [wStore]

/-- C7: an event whose bag metadata failed to parse behaves exactly like the
same event with an empty bag — no exception, zero line items created from
the bag, and the extracted context (when the charge resolves) carries the
empty bag. -/
theorem malformed_bag_degrades (w : World) (ev : Event) (s : Store)
    (h : ev.intent.metadata_bag = some .malformed) :
    handle_payment_intent_succeeded w ev s =
      handle_payment_intent_succeeded w (setBagMeta ev (some (.valid []))) s ∧
    (handle_payment_intent_succeeded w ev s).effects.lineItemsCreated = 0 ∧
    (mkCtx w ev = none ∨ ∃ c, mkCtx w ev = some c ∧ c.bag_data = []) := by
  have hck : mkCtx w ev = mkCtx w (setBagMeta ev (some (.valid []))) := by
    unfold mkCtx setBagMeta
    dsimp only
    rw [h]
    rfl
  refine ⟨?_, ?_, mkCtx_bag_malformed h⟩
  · unfold handle_payment_intent_succeeded
    rw [hck]
  · rcases mkCtx_bag_malformed (w := w) h with hnone | ⟨c, hc, hcb⟩
    · unfold handle_payment_intent_succeeded
      rw [hnone]
      rfl
    · unfold handle_payment_intent_succeeded
      rw [hc]
      dsimp only
      cases hps : profileStep c s with
      | error e => rfl
      | ok pr =>
        obtain ⟨prof, s1⟩ := pr
        dsimp only
        cases hl : orderLookup c s1 with
        | found o att sl => rfl
        | multiple att sl => rfl
        | notFound att sl =>
          dsimp only [createPhase]
          rw [hcb]
          rfl

/-- C7 witness: the concrete event with unparsable bag metadata. -/
theorem malformed_bag_degrades_witness :
    handle_payment_intent_succeeded wWorld mbEvent wStore =
      handle_payment_intent_succeeded wWorld
        (setBagMeta mbEvent (some (.valid []))) wStore ∧
    (handle_payment_intent_succeeded wWorld
      mbEvent wStore).effects.lineItemsCreated = 0 ∧
    (mkCtx wWorld mbEvent = none ∨
      ∃ c, mkCtx wWorld mbEvent = some c ∧ c.bag_data = []) :=
  malformed_bag_degrades wWorld mbEvent wStore rfl

/-- C8: the customer email falls back billing → shipping → placeholder (with
Python truthiness, so an empty-string email also falls through); the
extracted context's email is exactly this derivation; and every order the
handler creates stores the derived email. -/
theorem email_fallback :
    (∀ (e : String) (sh : Option String), e ≠ "" →
      deriveEmail (some e) sh = e) ∧
    (∀ (b : Option String) (e : String), (b = none ∨ b = some "") →
      e ≠ "" → deriveEmail b (some e) = e) ∧
    (∀ (b sh : Option String), (b = none ∨ b = some "") →
      (sh = none ∨ sh = some "") →
      deriveEmail b sh = "noemail@example.com") ∧
    (∀ (w : World) (ev : Event) (c : Ctx) (ch : Charge),
      mkCtx w ev = some c →
      chargeRetrieve w ev.intent.latest_charge = some ch →
      c.email = deriveEmail ch.billing_details_email
        ev.intent.shipping.email) ∧
    (∀ (w : World) (ev : Event) (s : Store) (o : Order),
      o ∈ ((handle_payment_intent_succeeded w ev s).store).orders →
      o ∉ s.orders →
      ∃ c, mkCtx w ev = some c ∧ o.email = c.email) := by
  refine ⟨?_, ?_, ?_, ?_, ?_⟩
  · intro e sh he
    simp [deriveEmail, pyOrStr, he]
  · intro b e hb he
    rcases hb with rfl | rfl <;> simp [deriveEmail, pyOrStr, he]
  · intro b sh hb hsh
    rcases hb with rfl | rfl <;> rcases hsh with rfl | rfl <;>
      simp [deriveEmail, pyOrStr]
  · intro w ev c ch hc hch
    unfold mkCtx at hc
    dsimp only at hc
    rw [hch] at hc
    dsimp only at hc
    injection hc with h
    rw [← h]
  · intro w ev s o ho hn
    obtain ⟨c, prof, hc, rfl⟩ := handler_new_order ho hn
    exact ⟨c, hc, rfl⟩

/-- C8 witness: concrete derivations and the concrete no-email delivery,
whose created order stores the placeholder. -/
theorem email_fallback_witness :
    deriveEmail (some "j@x.com") none = "j@x.com" ∧
    deriveEmail none (some "s@x.com") = "s@x.com" ∧
    deriveEmail none none = "noemail@example.com" ∧
    nbCtx.email = deriveEmail nbCharge.billing_details_email
      wEvent.intent.shipping.email ∧
    (∃ c, mkCtx nbWorld wEvent = some c ∧ nbOrder.email = c.email) ∧
    nbOrder.email = "noemail@example.com" := by
  have h := email_fallback
  refine ⟨h.1 "j@x.com" none (by decide),
    h.2.1 none "s@x.com" (Or.inl rfl) (by decide),
    h.2.2.1 none none (Or.inl rfl) (Or.inl rfl),
    h.2.2.2.1 nbWorld wEvent nbCtx nbCharge rfl rfl,
    h.2.2.2.2 nbWorld wEvent wStore nbOrder ?_ ?_, rfl⟩
  · have hor : ((handle_payment_intent_succeeded nbWorld wEvent
        wStore).store).orders = [nbOrder] := rfl
    rw [hor]
    exact List.mem_singleton.mpr rfl
  · simp [wStore]

/-- C9: the payment-failed handler and the catch-all handler acknowledge
with HTTP 200, leave the store exactly as it was, and record no side
effects: no order, line item or profile is created, modified or deleted. -/
theorem benign_events_no_mutation (ev : Event) (s : Store) :
    handle_event ev s =
      ({ status := 200, content := "Unhandled webhook received: " ++ ev.type },
       s, effZero) ∧
    handle_payment_intent_payment_failed ev s =
      ({ status := 200
         content := "Payment failed webhook received: " ++ ev.type },
       s, effZero) ∧
    (handle_event ev s).2.1 = s ∧
    (handle_event ev s).1.status = 200 ∧
    (handle_payment_intent_payment_failed ev s).2.1 = s ∧
    (handle_payment_intent_payment_failed ev s).1.status = 200 :=
  ⟨rfl, rfl, rfl, rfl, rfl, rfl⟩

/-- C10: for a known non-anonymous user with the save-info flag truthy, the
profile's default shipping fields are overwritten and saved in the store the
order-existence lookup then runs against; when order/line-item creation
subsequently fails, the handler answers 500 and rolls back only the order —
the saved profile update persists in the final store. -/
theorem profile_update_survives_rollback
    (w : World) (ev : Event) (s : Store) (c : Ctx) (u : String) (p : Profile)
    (att sl : Nat) (s2 : Store) (n : Nat) (e : Exn)
    (hc : mkCtx w ev = some c)
    (hu : c.username = some u)
    (hne1 : u ≠ "") (hne2 : u ≠ "AnonymousUser")
    (hsi : truthyStr c.save_info = true)
    (hfp : findProfile s u = some p)
    (hl : orderLookup c (saveProfile s (updateProfileRecord p c.shipping)) =
      .notFound att sl)
    (hr : createLineItems
        (createOrderInStore (saveProfile s (updateProfileRecord p c.shipping))
          (mkOrder c (some u)
            (saveProfile s (updateProfileRecord p c.shipping)).nextOrderId))
        (mkOrder c (some u)
          (saveProfile s (updateProfileRecord p c.shipping)).nextOrderId).id
        c.bag_data = (s2, n, some e)) :
    profileStep c s =
      Except.ok (some u, saveProfile s (updateProfileRecord p c.shipping)) ∧
    handle_payment_intent_succeeded w ev s =
      .ok { status := 500
            content := "Webhook error: Could not create order — " ++
              exnMsg e }
        (deleteOrder s2 (mkOrder c (some u)
          (saveProfile s (updateProfileRecord p c.shipping)).nextOrderId).id)
        { ordersCreated := 1, lineItemsCreated := n, lookups := att
          sleepSeconds := sl, emailsSent := 0 } ∧
    findProfile ((handle_payment_intent_succeeded w ev s).store) u =
      some (updateProfileRecord p c.shipping) := by
  have hps : profileStep c s =
      Except.ok (some u, saveProfile s (updateProfileRecord p c.shipping)) := by
    unfold profileStep
    rw [hu]
    dsimp only
    rw [if_neg (by simp [hne1, hne2])]
    rw [hfp]
    dsimp only
    rw [if_pos hsi]
  have hmain : handle_payment_intent_succeeded w ev s =
      .ok { status := 500
            content := "Webhook error: Could not create order — " ++
              exnMsg e }
        (deleteOrder s2 (mkOrder c (some u)
          (saveProfile s (updateProfileRecord p c.shipping)).nextOrderId).id)
        { ordersCreated := 1, lineItemsCreated := n, lookups := att
          sleepSeconds := sl, emailsSent := 0 } := by
    unfold handle_payment_intent_succeeded
    rw [hc]
    dsimp only
    rw [hps]
    dsimp only
    rw [hl]
    dsimp only [createPhase]
    rw [hr]
  refine ⟨hps, hmain, ?_⟩
  rw [hmain]
  simp only [HResult.store]
  obtain ⟨extra, hx⟩ := createLineItems_shape c.bag_data
    (createOrderInStore (saveProfile s (updateProfileRecord p c.shipping))
      (mkOrder c (some u)
        (saveProfile s (updateProfileRecord p c.shipping)).nextOrderId))
    (mkOrder c (some u)
      (saveProfile s (updateProfileRecord p c.shipping)).nextOrderId).id
  rw [hr] at hx
  simp at hx
  have hprofiles : (deleteOrder s2 (mkOrder c (some u)
      (saveProfile s (updateProfileRecord p c.shipping)).nextOrderId).id).profiles =
      (saveProfile s (updateProfileRecord p c.shipping)).profiles := by
    simp only [deleteOrder]
    rw [hx]
    rfl
  rw [findProfile_congr hprofiles]
  exact findProfile_saveProfile hfp _ rfl

/-- C10 witness: user `jane` with save-info set, empty product catalog — the
500 rollback leaves her updated profile in place. -/
theorem profile_update_survives_rollback_witness :
    profileStep puCtx wStoreProf =
      Except.ok (some "jane",
        saveProfile wStoreProf (updateProfileRecord wProfile puCtx.shipping)) ∧
    handle_payment_intent_succeeded wWorld puEvent wStoreProf =
      .ok { status := 500
            content := "Webhook error: Could not create order — " ++
              exnMsg (.productDoesNotExist "42") }
        (deleteOrder
          (createOrderInStore
            (saveProfile wStoreProf (updateProfileRecord wProfile puCtx.shipping))
            (mkOrder puCtx (some "jane")
              (saveProfile wStoreProf
                (updateProfileRecord wProfile puCtx.shipping)).nextOrderId))
          (mkOrder puCtx (some "jane")
            (saveProfile wStoreProf
              (updateProfileRecord wProfile puCtx.shipping)).nextOrderId).id)
        { ordersCreated := 1, lineItemsCreated := 0, lookups := 5
          sleepSeconds := 5, emailsSent := 0 } ∧
    findProfile ((handle_payment_intent_succeeded wWorld puEvent
      wStoreProf).store) "jane" =
      some (updateProfileRecord wProfile puCtx.shipping) :=
  profile_update_survives_rollback wWorld puEvent wStoreProf puCtx "jane"
    wProfile 5 5
    (createOrderInStore
      (saveProfile wStoreProf (updateProfileRecord wProfile puCtx.shipping))
      (mkOrder puCtx (some "jane")
        (saveProfile wStoreProf
          (updateProfileRecord wProfile puCtx.shipping)).nextOrderId))
    0 (.productDoesNotExist "42")
    rfl rfl (by decide) (by decide) rfl rfl rfl rfl

end Tac
